import Mathlib

/-!
Verification of the KAST scanning tool (`src/`): the JSON-recovery
normalizer (`src/modules/utils/json_utils.py`), the probe adapters
(`src/modules/recon/*.py`, `src/modules/vuln_scan/nikto_scanner.py`),
the scan coordinator (`src/modules/recon/coordinator.py`), the target
validator (`src/modules/utils/validators.py`) and the entry point
(`src/main.py`), embedded shallowly as executable Lean functions.

Strings are handled as `List Char` internally (Python `str`), wrapped
into `String` at the outer interfaces.  Python's `json.loads` is
modelled by a fuel-based recursive-descent parser for the JSON grammar
it implements; JSON numbers are modelled as integer literals (the only
numeric shape the statements below evaluate).  Python dictionaries are
modelled as insertion-ordered association lists with in-place update on
duplicate keys, matching `dict` assignment semantics.
-/

/-- JSON values as produced by Python's `json.loads` (numbers restricted
to integer literals). An `obj` is an insertion-ordered association list. -/
inductive JVal where
  | null : JVal
  | bool : Bool → JVal
  | num : Int → JVal
  | str : String → JVal
  | arr : List JVal → JVal
  | obj : List (String × JVal) → JVal
  deriving Repr

namespace JVal

/-- Dictionary lookup, `d[k]` / `d.get(k)`. -/
def lookup (k : String) : JVal → Option JVal
  | .obj kvs => go kvs
  | _ => none
where go : List (String × JVal) → Option JVal
  | [] => none
  | (k', v) :: rest => if k = k' then some v else go rest

/-- Python truthiness (`if data:`): `None`, `False`, `0`, `""`, `[]` and
`{}` are falsy; everything else is truthy. -/
def truthy : JVal → Bool
  | .null => false
  | .bool b => b
  | .num n => n != 0
  | .str s => s.data != []
  | .arr xs => !xs.isEmpty
  | .obj kvs => !kvs.isEmpty

end JVal

/-- `dict` assignment `d[k] = v`: update in place if the key exists,
otherwise append (Python dicts preserve insertion order). -/
def insertKey : List (String × JVal) → String → JVal → List (String × JVal)
  | [], k, v => [(k, v)]
  | (k', v') :: rest, k, v =>
      if k = k' then (k, v) :: rest else (k', v') :: insertKey rest k v

/-- JSON whitespace accepted by `json.loads`: space, tab, newline, CR. -/
def isJsonWs (c : Char) : Bool :=
  c = ' ' || c = '\t' || c = '\n' || c = '\r'

def skipWs (s : List Char) : List Char := s.dropWhile isJsonWs

def isDigitCh (c : Char) : Bool := '0' ≤ c && c ≤ '9'

def isHexCh (c : Char) : Bool :=
  isDigitCh c || ('a' ≤ c && c ≤ 'f') || ('A' ≤ c && c ≤ 'F')

def hexVal (c : Char) : Nat :=
  if isDigitCh c then c.toNat - '0'.toNat
  else if 'a' ≤ c && c ≤ 'f' then c.toNat - 'a'.toNat + 10
  else c.toNat - 'A'.toNat + 10

/-- Parse the body of a JSON string literal (opening quote already
consumed); returns the decoded characters and the input after the
closing quote.  Escapes and the rejection of raw control characters
follow `json.loads` in strict mode. -/
def pStr : List Char → Option (List Char × List Char)
  | [] => none
  | '"' :: rest => some ([], rest)
  | '\\' :: rest =>
      match rest with
      | '"' :: r => (pStr r).map (fun p => ('"' :: p.1, p.2))
      | '\\' :: r => (pStr r).map (fun p => ('\\' :: p.1, p.2))
      | '/' :: r => (pStr r).map (fun p => ('/' :: p.1, p.2))
      | 'b' :: r => (pStr r).map (fun p => ('\x08' :: p.1, p.2))
      | 'f' :: r => (pStr r).map (fun p => ('\x0c' :: p.1, p.2))
      | 'n' :: r => (pStr r).map (fun p => ('\n' :: p.1, p.2))
      | 'r' :: r => (pStr r).map (fun p => ('\r' :: p.1, p.2))
      | 't' :: r => (pStr r).map (fun p => ('\t' :: p.1, p.2))
      | 'u' :: h1 :: h2 :: h3 :: h4 :: r =>
          if isHexCh h1 && isHexCh h2 && isHexCh h3 && isHexCh h4 then
            let n := ((hexVal h1 * 16 + hexVal h2) * 16 + hexVal h3) * 16 + hexVal h4
            if n < 0xd800 then
              (pStr r).map (fun p => (Char.ofNat n :: p.1, p.2))
            else if n ≥ 0xe000 then
              (pStr r).map (fun p => (Char.ofNat n :: p.1, p.2))
            else none
          else none
      | _ => none
  | c :: rest =>
      if c.toNat < 0x20 then none
      else (pStr rest).map (fun p => (c :: p.1, p.2))

/-- Decimal digits to a natural number (most significant first). -/
def digitsToNat (ds : List Char) : Nat :=
  ds.foldl (fun acc c => acc * 10 + (c.toNat - '0'.toNat)) 0

/-- Parse a JSON number literal.  `json.loads` requires `0` or a
non-zero leading digit for the integer part; a fraction or exponent
would make the value a float, which this model does not represent, so
such literals are rejected here. -/
def pNum (s : List Char) : Option (JVal × List Char) :=
  let (neg, s1) := match s with
    | '-' :: r => (true, r)
    | _ => (false, s)
  let ds := s1.takeWhile isDigitCh
  let rest := s1.dropWhile isDigitCh
  if ds.isEmpty then none
  else if ds.length > 1 && ds.headD '0' = '0' then none
  else match rest with
    | '.' :: _ => none
    | 'e' :: _ => none
    | 'E' :: _ => none
    | _ =>
        let n : Int := Int.ofNat (digitsToNat ds)
        some (.num (if neg then -n else n), rest)

mutual

/-- Parse one JSON value (leading whitespace allowed), with fuel
bounding the recursion. -/
def pVal : Nat → List Char → Option (JVal × List Char)
  | 0, _ => none
  | fuel + 1, s =>
      match skipWs s with
      | 'n' :: 'u' :: 'l' :: 'l' :: r => some (.null, r)
      | 't' :: 'r' :: 'u' :: 'e' :: r => some (.bool true, r)
      | 'f' :: 'a' :: 'l' :: 's' :: 'e' :: r => some (.bool false, r)
      | '"' :: r => (pStr r).map (fun p => (.str (String.mk p.1), p.2))
      | '[' :: r =>
          (match skipWs r with
           | ']' :: r2 => some (.arr [], r2)
           | _ => (pElems fuel (skipWs r)).map (fun p => (.arr p.1, p.2)))
      | '\x7b' :: r =>
          (match skipWs r with
           | '\x7d' :: r2 => some (.obj [], r2)
           | _ => (pMems fuel (skipWs r)).map
               (fun p => (.obj (p.1.foldl (fun d kv => insertKey d kv.1 kv.2) []), p.2)))
      | s' => pNum s'

/-- Parse the elements of a non-empty JSON array (after `[`), up to and
including the closing bracket. -/
def pElems : Nat → List Char → Option (List JVal × List Char)
  | 0, _ => none
  | fuel + 1, s => do
      let (v, r) ← pVal fuel s
      match skipWs r with
      | ']' :: r2 => some ([v], r2)
      | ',' :: r2 => do
          let (vs, r3) ← pElems fuel r2
          some (v :: vs, r3)
      | _ => none

/-- Parse the members of a non-empty JSON object (after the opening
brace), up to and including the closing brace; keys must be strings. -/
def pMems : Nat → List Char → Option (List (String × JVal) × List Char)
  | 0, _ => none
  | fuel + 1, s => do
      match skipWs s with
      | '"' :: r => do
          let (k, r1) ← pStr r
          match skipWs r1 with
          | ':' :: r2 => do
              let (v, r3) ← pVal fuel r2
              match skipWs r3 with
              | '\x7d' :: r4 => some ([(String.mk k, v)], r4)
              | ',' :: r4 => do
                  let (kvs, r5) ← pMems fuel r4
                  some ((String.mk k, v) :: kvs, r5)
              | _ => none
          | _ => none
      | _ => none

end

/-- `json.loads` on a character list: one JSON document, with nothing
but whitespace allowed after it. -/
def jsonLoads0 (s : List Char) : Option JVal :=
  match pVal (2 * s.length + 4) s with
  | some (v, r) => if (skipWs r).isEmpty then some v else none
  | none => none

/-- `json.loads` on a string. -/
def jsonLoads (s : String) : Option JVal := jsonLoads0 s.data

example : jsonLoads "\x7b\"a\": 1\x7d" = some (.obj [("a", .num 1)]) := rfl
example : jsonLoads "[1, 2, null, true, \"x\"]"
    = some (.arr [.num 1, .num 2, .null, .bool true, .str "x"]) := rfl
example : jsonLoads "\x7b\"a\": 1" = none := rfl
example : jsonLoads " [\"a\", \x7b\"b\": [-2]\x7d] "
    = some (.arr [.str "a", .obj [("b", .arr [.num (-2)])]]) := rfl
example : jsonLoads "\x7b\"a\": 1\x7d extra" = none := rfl
example : jsonLoads "\x7b\"a\": \"b\\\"c\"\x7d" = some (.obj [("a", .str "b\"c")]) := rfl

/-! ## `json_utils.robust_json_parse` (src/modules/utils/json_utils.py) -/

/-- Python `str.strip()` whitespace (ASCII): space, tab, LF, CR, FF, VT. -/
def isPyWs (c : Char) : Bool :=
  c = ' ' || c = '\t' || c = '\n' || c = '\r' || c = '\x0c' || c = '\x0b'

/-- Python `str.strip()`. -/
def pyStrip (s : List Char) : List Char :=
  (((s.dropWhile isPyWs).reverse).dropWhile isPyWs).reverse

/-- Python `str.replace(pat, rep)`: left-to-right, non-overlapping.
Fuel-driven so that it stays kernel-evaluable; `s.length + 1` steps
always suffice for a non-empty pattern. -/
def pyReplaceFuel : Nat → List Char → List Char → List Char → List Char
  | 0, _, _, s => s
  | fuel + 1, pat, rep, s =>
      if !pat.isEmpty && pat.isPrefixOf s then
        rep ++ pyReplaceFuel fuel pat rep (s.drop pat.length)
      else
        match s with
        | [] => []
        | c :: rest => c :: pyReplaceFuel fuel pat rep rest

def pyReplace (s pat rep : List Char) : List Char :=
  pyReplaceFuel (s.length + 1) pat rep s

/-- Python `str.split(sep)` for a single-character separator. -/
def pySplitChar (sep : Char) : List Char → List (List Char)
  | [] => [[]]
  | c :: rest =>
      let r := pySplitChar sep rest
      if c = sep then [] :: r
      else match r with
        | [] => [[c]]
        | chunk :: more => (c :: chunk) :: more

/-- The span matched by `re.search(r'(\{.*\})', content, re.DOTALL)`:
from the first opening brace to the last closing brace after it (the
leftmost-then-greedy match), if such a pair exists. -/
def greedySpan (opn cls : Char) (s : List Char) : Option (List Char) :=
  let lastCls := s.length - 1 - (s.reverse.findIdx (fun c => c = cls))
  match s.findIdx? (fun c => c = opn) with
  | none => none
  | some i =>
      if s.reverse.findIdx (fun c => c = cls) < s.length then
        if i < lastCls then some ((s.take (lastCls + 1)).drop i) else none
      else none

example : greedySpan '\x7b' '\x7d' "aa\x7bxx\x7dbb\x7byy\x7dcc".data
    = some "\x7bxx\x7dbb\x7byy\x7d".data := rfl
example : greedySpan '\x7b' '\x7d' "ab\x7dcd\x7bef".data = none := rfl
example : greedySpan '[' ']' "x[1]y".data = some "[1]".data := rfl

/-- Steps 1–2 of the recovery pipeline of `robust_json_parse` (lines
31–50): strip; keep content that already looks like a complete array or
object; otherwise substitute the greedy `{...}` (preferred) or `[...]`
span when one exists; then unconditionally apply
`content.replace('\\"', '"').replace("\\'", "'")`. -/
def recoverContent (content : List Char) : List Char :=
  let c := pyStrip content
  let c :=
    if c.headD ' ' = '[' && c.getLastD ' ' = ']' then c
    else if c.headD ' ' = '\x7b' && c.getLastD ' ' = '\x7d' then c
    else match greedySpan '\x7b' '\x7d' c with
      | some m => m
      | none => match greedySpan '[' ']' c with
        | some m => m
        | none => c
  pyReplace (pyReplace c ['\\', '"'] ['"']) ['\\', '\''] ['\'']

/-- Step 4 of the recovery pipeline (lines 56–72): split into lines,
strip each, and parse every line that begins with a brace or bracket,
collecting the lines that parse. -/
def lineParse (content : List Char) : List JVal :=
  (pySplitChar '\n' content).filterMap (fun l =>
    let l := pyStrip l
    if !l.isEmpty && (l.headD ' ' = '\x7b' || l.headD ' ' = '[') then
      jsonLoads0 l
    else none)

/-- `robust_json_parse` (json_utils.py lines 11–86): direct
`json.loads`; on failure the cleaned content is parsed; on failure the
line-by-line fallback is used, a non-empty collection being returned as
a list; otherwise `None`. -/
def robust_json_parse (content : String) : Option JVal :=
  match jsonLoads0 content.data with
  | some v => some v
  | none =>
      let c := recoverContent content.data
      match jsonLoads0 c with
      | some v => some v
      | none =>
          match lineParse c with
          | [] => none
          | objs => some (.arr objs)

/-- The spec's normalizer status vocabulary, mapped onto the observable
outcomes of `robust_json_parse`: Success when the direct parse
succeeds, PartialSuccess (`recovered`) when only a recovery stage
succeeds, Failed when every stage fails and `None` is returned. -/
inductive NormStatus where
  | success : NormStatus
  | recovered : NormStatus
  | failed : NormStatus
  deriving Repr, DecidableEq

def robustStatus (content : String) : NormStatus :=
  if (jsonLoads0 content.data).isSome then .success
  else if (robust_json_parse content).isSome then .recovered
  else .failed

/-- `load_json_file` (json_utils.py lines 107–128), with the file
system shallowly represented by the file's content (`none` = missing
file): a missing file yields `None`, otherwise the content is passed to
`robust_json_parse`. -/
def load_json_file (fileContent : Option String) : Option JVal :=
  match fileContent with
  | none => none
  | some content => robust_json_parse content

example : robust_json_parse "\x7b\"a\": 1\x7d" = some (.obj [("a", .num 1)]) := rfl
example : robust_json_parse "xx\x7b\"a\": 1\x7d" = some (.obj [("a", .num 1)]) := rfl
example : robust_json_parse "hello" = none := rfl
example : robust_json_parse "\x7b\"a\": 1\x7d\n\x7b\"b\": 2\x7d"
    = some (.arr [.obj [("a", .num 1)], .obj [("b", .num 2)]]) := rfl
example : robustStatus "xx\x7b\"a\": 1\x7d" = .recovered := rfl

/-! ## `validators` (src/modules/utils/validators.py) -/

def startsWithL (pre s : List Char) : Bool := pre.isPrefixOf s

def startsWithHttp (s : List Char) : Bool :=
  startsWithL "http://".data s || startsWithL "https://".data s

/-- `normalize_url`: prepend `http://` when no scheme is present. -/
def normalize_url (url : List Char) : List Char :=
  if startsWithHttp url then url else "http://".data ++ url

/-- The `netloc` of `urlparse` for a URL that begins with `http://` or
`https://`: the text after `//` up to the first `/`, `?` or `#`. -/
def netlocOf (url : List Char) : List Char :=
  let after :=
    if startsWithL "https://".data url then url.drop 8
    else if startsWithL "http://".data url then url.drop 7
    else []
  after.takeWhile (fun c => !(c = '/' || c = '?' || c = '#'))

/-- `extract_domain`: `urlparse(normalize_url(url)).netloc`. -/
def extract_domain (url : List Char) : List Char := netlocOf (normalize_url url)

example : extract_domain "https://example.com/a/b".data = "example.com".data := rfl
example : extract_domain "example.com".data = "example.com".data := rfl

def isAsciiAlphaNum (c : Char) : Bool :=
  ('a' ≤ c && c ≤ 'z') || ('A' ≤ c && c ≤ 'Z') || isDigitCh c

/-- One label of the hostname pattern
`[a-zA-Z0-9](?:[a-zA-Z0-9-]{0,61}[a-zA-Z0-9])?`: a single alphanumeric
character, or 2–63 characters whose first and last are alphanumeric and
whose interior is alphanumeric or `-`. -/
def labelOk (l : List Char) : Bool :=
  match l with
  | [] => false
  | [c] => isAsciiAlphaNum c
  | c :: rest =>
      isAsciiAlphaNum c && l.length ≤ 63 &&
      isAsciiAlphaNum (l.getLastD ' ') &&
      (rest.dropLast.all (fun d => isAsciiAlphaNum d || d = '-'))

/-- The anchored hostname regular expression of `is_valid_target`:
dot-separated labels. -/
def hostnameOk (s : List Char) : Bool :=
  let parts := pySplitChar '.' s
  !parts.isEmpty && parts.all labelOk

/-- `socket.inet_aton` acceptance, modelled for dotted-decimal input:
one to four non-empty runs of digits separated by dots (every such
input is also matched by the hostname pattern, so the exact numeric
range checks cannot change `is_valid_target`). -/
def inetAtonOk (s : List Char) : Bool :=
  let parts := pySplitChar '.' s
  parts.length ≤ 4 && parts.all (fun p => !p.isEmpty && p.all isDigitCh)

/-- `is_valid_target` (validators.py lines 11–39): URLs must have a
non-empty netloc; otherwise accept an IP address or a hostname matching
the pattern. -/
def is_valid_target (target : List Char) : Bool :=
  if startsWithHttp target then !(netlocOf target).isEmpty
  else inetAtonOk target || hostnameOk target

example : is_valid_target "example.com".data = true := rfl
example : is_valid_target "127.0.0.1".data = true := rfl
example : is_valid_target "http://example.com/x".data = true := rfl
example : is_valid_target "http://".data = false := rfl
example : is_valid_target "-bad-".data = false := rfl
example : is_valid_target "no spaces allowed".data = false := rfl

/-! ## Regex-extraction helpers shared by the adapters

`re.findall`/`re.search` calls in `ssl_recon.py`, `dns_recon.py` and
`wafw00f_scan.py` use patterns made of literal alternatives, character
classes, `\s+` separators and capture-to-end-of-line groups; they are
modelled by explicit left-to-right scanners with the same
leftmost-match, non-overlapping semantics. -/

/-- `\s` of Python regexes (ASCII). -/
def isRegexWs (c : Char) : Bool :=
  c = ' ' || c = '\t' || c = '\n' || c = '\r' || c = '\x0c' || c = '\x0b'

/-- `\w` of Python regexes (ASCII). -/
def isWordCh (c : Char) : Bool := isAsciiAlphaNum c || c = '_'

def matchLit (pre s : List Char) : Option (List Char) :=
  if pre.isPrefixOf s then some (s.drop pre.length) else none

/-- `\s+`: at least one whitespace character, consumed greedily. -/
def ws1 : List Char → Option (List Char)
  | [] => none
  | c :: rest => if isRegexWs c then some (rest.dropWhile isRegexWs) else none

/-- A character class applied greedily, requiring at least one match. -/
def takeCls (p : Char → Bool) (s : List Char) : Option (List Char × List Char) :=
  let t := s.takeWhile p
  if t.isEmpty then none else some (t, s.dropWhile p)

/-- The first of a list of literal alternatives that matches here. -/
def altLit (alts : List (List Char)) (s : List Char) : Option (List Char × List Char) :=
  alts.findSome? (fun a => (matchLit a s).map (fun r => (a, r)))

/-- `re.findall`: repeatedly match `step` left to right without
overlap, advancing one character on failure.  Every `step` used below
consumes at least one character, so `s.length + 1` fuel is exact. -/
def scanAll {α : Type} (step : List Char → Option (α × List Char)) :
    Nat → List Char → List α
  | 0, _ => []
  | _, [] => []
  | fuel + 1, c :: rest =>
      match step (c :: rest) with
      | some (a, r) => a :: scanAll step fuel r
      | none => scanAll step fuel rest

/-- `re.search(tag + r'\s+(.*?)$', s, re.MULTILINE)`: the text after
the first occurrence of `tag` that is followed by whitespace, up to the
end of that line. -/
def searchCapToEol (tag : List Char) : Nat → List Char → Option (List Char)
  | 0, _ => none
  | _, [] => none
  | fuel + 1, c :: rest =>
      match matchLit tag (c :: rest) with
      | some r =>
          match ws1 r with
          | some r2 => some (r2.takeWhile (fun d => d != '\n'))
          | none => searchCapToEol tag fuel rest
      | none => searchCapToEol tag fuel rest

/-- `re.search(tag + r'\s+(\d+)', s)`: the digits after the first
occurrence of `tag` that is followed by whitespace and a digit. -/
def searchCapDigits (tag : List Char) : Nat → List Char → Option (List Char)
  | 0, _ => none
  | _, [] => none
  | fuel + 1, c :: rest =>
      match matchLit tag (c :: rest) with
      | some r =>
          match ws1 r with
          | some r2 =>
              (match takeCls isDigitCh r2 with
               | some (ds, _) => some ds
               | none => searchCapDigits tag fuel rest)
          | none => searchCapDigits tag fuel rest
      | none => searchCapDigits tag fuel rest

/-- The suffix after the last occurrence of `sep`
(`s.split(sep)[-1]`), or `none` when `sep` does not occur. -/
def afterLastSub (sep : List Char) : List Char → Option (List Char)
  | [] => none
  | c :: rest =>
      match afterLastSub sep rest with
      | some r => some r
      | none =>
          if sep.isPrefixOf (c :: rest) then some ((c :: rest).drop sep.length)
          else none

/-- Substring containment (`pat in s` for non-empty `pat`). -/
def hasSub (pat : List Char) : List Char → Bool
  | [] => pat.isEmpty
  | c :: rest => pat.isPrefixOf (c :: rest) || hasSub pat rest

/-! ## `ssl_recon.run_sslscan` fallback extraction (ssl_recon.py 67–119) -/

def protoNames : List (List Char) :=
  ["SSLv2".data, "SSLv3".data, "TLSv1.0".data, "TLSv1.1".data,
   "TLSv1.2".data, "TLSv1.3".data]

/-- One match of
`(SSLv2|SSLv3|TLSv1\.0|TLSv1\.1|TLSv1\.2|TLSv1\.3)\s+(enabled|disabled)`. -/
def protoStep (s : List Char) : Option ((String × Bool) × List Char) := do
  let (name, r1) ← altLit protoNames s
  let r2 ← ws1 r1
  match altLit ["enabled".data, "disabled".data] r2 with
  | some (st, r3) => some ((String.mk name, st = "enabled".data), r3)
  | none => none

/-- `sslscan_data['protocols']` (ssl_recon.py 70–76). -/
def extractProtocols (stdout : List Char) : List (String × JVal) :=
  (scanAll protoStep (stdout.length + 1) stdout).foldl
    (fun d p => insertKey d p.1 (.bool p.2)) []

/-- One match of
`(Preferred|Accepted)\s+(TLSv[\d\.]+)\s+(\d+) bits\s+([\w-]+)\s+(.*)`. -/
def cipherStep (s : List Char) : Option (JVal × List Char) := do
  let (pref, r1) ← altLit ["Preferred".data, "Accepted".data] s
  let r2 ← ws1 r1
  let r3 ← matchLit "TLSv".data r2
  let (pd, r4) ← takeCls (fun c => isDigitCh c || c = '.') r3
  let r5 ← ws1 r4
  let (bits, r6) ← takeCls isDigitCh r5
  let r7 ← matchLit " bits".data r6
  let r8 ← ws1 r7
  let (ciph, r9) ← takeCls (fun c => isWordCh c || c = '-') r8
  let r10 ← ws1 r9
  let extra := r10.takeWhile (fun c => c != '\n')
  some (.obj [("preference", .str (String.mk pref)),
              ("protocol", .str (String.mk ("TLSv".data ++ pd))),
              ("bits", .str (String.mk bits)),
              ("cipher", .str (String.mk ciph)),
              ("extra", .str (String.mk (pyStrip extra)))],
        r10.dropWhile (fun c => c != '\n'))

/-- `sslscan_data['ciphers']` (ssl_recon.py 78–90). -/
def extractCiphers (stdout : List Char) : List JVal :=
  scanAll cipherStep (stdout.length + 1) stdout

/-- `sslscan_data['certificate']` (ssl_recon.py 92–119): conditional
`re.search` extractions, inserted in source order when present. -/
def extractCertificate (stdout : List Char) : List (String × JVal) :=
  let n := stdout.length + 1
  let add (d : List (String × JVal)) (k : String) (o : Option (List Char)) :
      List (String × JVal) :=
    match o with
    | some v => insertKey d k (.str (String.mk (pyStrip v)))
    | none => d
  let d := add [] "subject" (searchCapToEol "Subject:".data n stdout)
  let d := add d "issuer" (searchCapToEol "Issuer:".data n stdout)
  let d := add d "not_before" (searchCapToEol "Not valid before:".data n stdout)
  let d := add d "not_after" (searchCapToEol "Not valid after:".data n stdout)
  add d "rsa_key_strength" (searchCapDigits "RSA Key Strength:".data n stdout)

/-! ## `dns_recon.run_dnsenum` extraction (dns_recon.py 60–89) -/

/-- `re.findall(r'NS: (.*?)$', stdout, re.MULTILINE)`: for each line,
the text after the first `NS: `, stripped on insertion. -/
def nsStep (s : List Char) : Option (List Char × List Char) := do
  let r ← matchLit "NS: ".data s
  some (r.takeWhile (fun d => d != '\n'), r.dropWhile (fun d => d != '\n'))

def extractNameservers (stdout : List Char) : List JVal :=
  (scanAll nsStep (stdout.length + 1) stdout).map
    (fun m => .str (String.mk (pyStrip m)))

/-- `re.findall(r'MX: (.*?) (.*?)$', stdout, re.MULTILINE)`: after
`MX: `, the lazily-matched priority up to the first space, then the
host to the end of the line. -/
def mxStep (s : List Char) : Option (JVal × List Char) := do
  let r ← matchLit "MX: ".data s
  let line := r.takeWhile (fun d => d != '\n')
  let rest := r.dropWhile (fun d => d != '\n')
  if hasSub [' '] line then
    let priority := line.takeWhile (fun d => d != ' ')
    let host := (line.dropWhile (fun d => d != ' ')).drop 1
    some (.obj [("host", .str (String.mk (pyStrip host))),
                ("priority", .str (String.mk (pyStrip priority)))], rest)
  else none

def extractMxRecords (stdout : List Char) : List JVal :=
  scanAll mxStep (stdout.length + 1) stdout

/-- The `(\d+\.\d+\.\d+\.\d+)` group of the host pattern of
`dns_recon.py` line 77. -/
def ipQuad (s : List Char) : Option (List Char × List Char) := do
  let (d1, r1) ← takeCls isDigitCh s
  let r2 ← matchLit ['.'] r1
  let (d2, r3) ← takeCls isDigitCh r2
  let r4 ← matchLit ['.'] r3
  let (d3, r5) ← takeCls isDigitCh r4
  let r6 ← matchLit ['.'] r5
  let (d4, r7) ← takeCls isDigitCh r6
  some (d1 ++ ['.'] ++ d2 ++ ['.'] ++ d3 ++ ['.'] ++ d4, r7)

/-- The `\s+\d+\s+IN\s+A\s+` middle of the host pattern. -/
def ttlInA (s : List Char) : Option (List Char) := do
  let r1 ← ws1 s
  let (_, r2) ← takeCls isDigitCh r1
  let r3 ← ws1 r2
  let r4 ← matchLit "IN".data r3
  let r5 ← ws1 r4
  let r6 ← matchLit "A".data r5
  ws1 r6

/-- One match of the host pattern
`([\w\.-]+\.[\w\.-]+)\s+\d+\s+IN\s+A\s+(\d+\.\d+\.\d+\.\d+)`
(`dns_recon.py` line 77); the first group is a maximal run of
word/dot/dash characters containing a dot. -/
def hostStep (s : List Char) : Option ((List Char × List Char) × List Char) := do
  let (run, r1) ← takeCls (fun c => isWordCh c || c = '.' || c = '-') s
  if !hasSub ['.'] run then none
  else do
    let r2 ← ttlInA r1
    let (ip, r3) ← ipQuad r2
    some ((run, ip), r3)

def extractHosts (stdout : List Char) : List (List Char × List Char) :=
  scanAll hostStep (stdout.length + 1) stdout

/-! ## Probe adapters

Each adapter is a function of the target, the output directory, the
`dry_run` flag and an environment describing what the external world
(subprocess, file system, remote API) does; it returns the trace of
external invocations it performs together with its Python return value.
Exception *messages* (`str(e)`) are modelled by fixed representative
strings; exception *flow* follows the source's `try`/`except` blocks. -/

/-- An external invocation: a subprocess command or an HTTP request. -/
inductive ExtCall where
  | proc (cmd : List String)
  | http (url : String)
  deriving Repr, DecidableEq

/-- Python exceptions that escape an adapter. -/
inductive PyExc where
  | fileNotFound
  deriving Repr, DecidableEq

/-- What `subprocess.run` does: raise `FileNotFoundError` (the external
tool is not installed), or run the process to completion. -/
inductive ProcOutcome where
  | toolMissing
  | exit (code : Nat) (stdout stderr : List Char)

def pathJoin (a b : String) : String := a ++ "/" ++ b

def joinCmd (cmd : List String) : String := String.intercalate " " cmd

def extractDomainS (t : String) : String := String.mk (extract_domain t.data)

def normalizeUrlS (t : String) : String := String.mk (normalize_url t.data)

/-- The `{"dry_run": True, "command": ..., "output_file": ...}` dict
returned by the subprocess adapters under `--dry-run`. -/
def dryRunDict (cmd : List String) (outputFile : String) : JVal :=
  .obj [("dry_run", .bool true), ("command", .str (joinCmd cmd)),
        ("output_file", .str outputFile)]

def excMsgFileNotFound : String := "[Errno 2] No such file or directory"

/-! ### `passive_recon.run_whatweb` (passive_recon.py 20–68) -/

structure WhatwebEnv where
  proc : ProcOutcome
  /-- Content of `whatweb.json` after the run; `none` = not created. -/
  outputFile : Option String

def whatwebCommand (target outputFile : String) : List String :=
  ["whatweb", "--no-errors", "-a", "3", "--log-json=" ++ outputFile, target]

/-- `run_whatweb`: `check=True`, so a non-zero exit raises
`CalledProcessError`, caught to return `None` without reading the
output file; a missing tool is caught by the generic handler; on a zero
exit the JSON file is loaded robustly and returned iff truthy. -/
def run_whatweb (target output_dir : String) (dry : Bool) (env : WhatwebEnv) :
    List ExtCall × Option JVal :=
  let output_file := pathJoin output_dir "whatweb.json"
  let command := whatwebCommand target output_file
  if dry then ([], some (dryRunDict command output_file))
  else
    match env.proc with
    | .toolMissing => ([.proc command], none)
    | .exit code _ _ =>
        if code != 0 then ([.proc command], none)
        else
          match env.outputFile with
          | none => ([.proc command], none)
          | some content =>
              match robust_json_parse content with
              | some v => ([.proc command], if v.truthy then some v else none)
              | none => ([.proc command], none)

/-! ### `passive_recon.run_theharvester` (passive_recon.py 70–178) -/

/-- Outcome of the theHarvester invocation and the XML handling that
follows it.  `exitZero none` stands for the XML-parsing path raising
(lines 160–175); `exitZero (some ...)` for the extracted email / host /
virtual-host text nodes. -/
inductive HarvOutcome where
  | toolMissing
  | exitNonZero (code : Nat)
  | exitZero (parsed : Option (List String × List String × List String))

def theharvesterCommand (domain outputFile : String) : List String :=
  ["theHarvester", "-d", domain, "-b", "all", "-f", outputFile]

/-- `run_theharvester`: only `subprocess.CalledProcessError` is caught
around the invocation, so a missing `theHarvester` binary
(`FileNotFoundError`) propagates out of the adapter. -/
def run_theharvester (target output_dir : String) (dry : Bool) (env : HarvOutcome) :
    List ExtCall × Except PyExc (Option JVal) :=
  let domain := extractDomainS target
  let output_file := pathJoin output_dir "theharvester.xml"
  let command := theharvesterCommand domain output_file
  if dry then ([], .ok (some (dryRunDict command output_file)))
  else
    match env with
    | .toolMissing => ([.proc command], .error .fileNotFound)
    | .exitNonZero _ => ([.proc command], .ok none)
    | .exitZero (some (emails, hosts, vhosts)) =>
        ([.proc command], .ok (some (.obj
          [("emails", .arr (emails.map .str)),
           ("hosts", .arr (hosts.map .str)),
           ("vhosts", .arr (vhosts.map .str))])))
    | .exitZero none =>
        ([.proc command], .ok (some (.obj
          [("emails", .arr []), ("hosts", .arr []), ("vhosts", .arr []),
           ("error", .str "XML parse error")])))

/-! ### `dns_recon.run_dnsenum` (dns_recon.py 12–106) -/

def dnsenumCommand (domain : String) : List String :=
  ["dnsenum", "--noreverse", "--nocolor", domain]

/-- The results dict built from dnsenum's stdout (dns_recon.py 50–93). -/
def dnsenumData (domain : List Char) (code : Nat) (stdout stderr : List Char) : JVal :=
  let hosts := extractHosts stdout
  let hostObj := fun (p : List Char × List Char) => JVal.obj
    [("hostname", .str (String.mk (pyStrip p.1))),
     ("ip", .str (String.mk (pyStrip p.2)))]
  .obj [("nameservers", .arr (extractNameservers stdout)),
        ("mx_records", .arr (extractMxRecords stdout)),
        ("subdomains", .arr ((hosts.filter
            (fun p => List.isSuffixOf ('.' :: domain) p.1)).map hostObj)),
        ("hosts", .arr (hosts.map hostObj)),
        ("raw_output", .str (String.mk stdout)),
        ("error", if code != 0 then .str (String.mk stderr) else .null)]

/-- `run_dnsenum`: `check=False`; every failure inside the `try` is
caught, so the adapter always returns a dict. -/
def run_dnsenum (target output_dir : String) (dry : Bool) (env : ProcOutcome) :
    List ExtCall × JVal :=
  let domain := extractDomainS target
  let json_output_file := pathJoin output_dir "dnsenum.json"
  let command := dnsenumCommand domain
  if dry then ([], dryRunDict command json_output_file)
  else
    match env with
    | .toolMissing =>
        ([.proc command], .obj
          [("nameservers", .arr []), ("mx_records", .arr []),
           ("subdomains", .arr []), ("hosts", .arr []),
           ("error", .str excMsgFileNotFound)])
    | .exit code stdout stderr =>
        ([.proc command], dnsenumData domain.data code stdout stderr)

/-! ### `ssl_recon.run_sslscan` (ssl_recon.py 14–163) -/

structure SslscanEnv where
  proc : ProcOutcome
  /-- Content of `sslscan.json` after the run; `none` = missing or empty. -/
  jsonFile : Option String

def sslscanCommand (domain outputFile : String) : List String :=
  ["sslscan", "--no-colour", "--json=" ++ outputFile, domain]

/-- The JSON built from sslscan's text output when the tool wrote no
usable JSON file (ssl_recon.py 58–123). -/
def sslscanTextData (domain : String) (isHttps : Bool) (code : Nat)
    (stdout stderr : List Char) : JVal :=
  .obj [("target", .str domain),
        ("is_https", .bool isHttps),
        ("raw_output", .str (String.mk stdout)),
        ("error", if code != 0 then .str (String.mk stderr) else .null),
        ("protocols", .obj (extractProtocols stdout)),
        ("ciphers", .arr (extractCiphers stdout)),
        ("certificate", .obj (extractCertificate stdout))]

/-- `run_sslscan`: `check=False`, and every exception is caught; the
adapter always returns a dict, falling back to text-output extraction
when the declared JSON file is missing, empty or unparsable. -/
def run_sslscan (target output_dir : String) (dry : Bool) (env : SslscanEnv) :
    List ExtCall × JVal :=
  let output_file := pathJoin output_dir "sslscan.json"
  let domain := extractDomainS target
  let is_https := startsWithL "https://".data (normalize_url target.data)
  let command := sslscanCommand domain output_file
  if dry then ([], dryRunDict command output_file)
  else
    match env.proc with
    | .toolMissing =>
        ([.proc command], .obj
          [("target", .str domain), ("is_https", .bool is_https),
           ("error", .str excMsgFileNotFound)])
    | .exit code stdout stderr =>
        match env.jsonFile with
        | none => ([.proc command], sslscanTextData domain is_https code stdout stderr)
        | some content =>
            match robust_json_parse content with
            | some v =>
                if v.truthy then ([.proc command], v)
                else ([.proc command], .obj
                  [("target", .str domain), ("is_https", .bool is_https),
                   ("raw_output", .str (String.mk stdout)),
                   ("error", .str "Failed to parse JSON output")])
            | none => ([.proc command], .obj
                  [("target", .str domain), ("is_https", .bool is_https),
                   ("raw_output", .str (String.mk stdout)),
                   ("error", .str "Failed to parse JSON output")])

/-! ### `wafw00f_scan.run_wafw00f` (wafw00f_scan.py 12–77) -/

structure WafEnv where
  proc : ProcOutcome
  /-- Content of `wafw00f.json` after the run; `none` = not created
  (opening it then raises `FileNotFoundError`, caught by the generic
  handler). -/
  outputFile : Option String

def wafw00fCommand (url outputFile : String) : List String :=
  ["wafw00f", url, "-a", "-o", outputFile, "-f", "json"]

/-- The manual fallback parse of wafw00f's stdout (wafw00f_scan.py
52–71): every line containing `is behind` contributes the stripped text
after its last occurrence. -/
def wafw00fManual (url : String) (stdout : List Char) : JVal :=
  .obj [("url", .str url),
        ("detected_wafs", .arr ((pySplitChar '\n' stdout).filterMap
          (fun line =>
            match afterLastSub "is behind".data line with
            | some suf => some (JVal.str (String.mk (pyStrip suf)))
            | none => none)))]

/-- `run_wafw00f`: `check=True`, so a non-zero exit raises
`CalledProcessError`, caught to return `None`; on a zero exit the JSON
file is parsed strictly, with the manual stdout parse as fallback. -/
def run_wafw00f (target output_dir : String) (dry : Bool) (env : WafEnv) :
    List ExtCall × Option JVal :=
  let url := normalizeUrlS target
  let output_file := pathJoin output_dir "wafw00f.json"
  let command := wafw00fCommand url output_file
  if dry then ([], some (dryRunDict command output_file))
  else
    match env.proc with
    | .toolMissing => ([.proc command], none)
    | .exit code stdout _ =>
        if code != 0 then ([.proc command], none)
        else
          match env.outputFile with
          | none => ([.proc command], none)
          | some content =>
              match jsonLoads content with
              | some v => ([.proc command], some v)
              | none => ([.proc command], some (wafw00fManual url stdout))

/-! ### `web_recon.browser_recon` (web_recon.py 13–151)

Headless-browser page interaction is an external collaborator (spec
§1); the non-dry body is modelled by its outcome: the data dict it
builds, or `none` when any exception is raised (the wrapper catches
everything and returns `None`). -/

def browserDryDict (url outputFile screenshot : String) : JVal :=
  .obj [("dry_run", .bool true), ("target", .str url),
        ("tool", .str "Browser Reconnaissance"),
        ("actions", .arr
          [.str "Extract JavaScript files", .str "Extract form information",
           .str "Extract links", .str "Take screenshot", .str "Get cookies",
           .str "Get local/session storage", .str "Detect frameworks"]),
        ("output_file", .str outputFile), ("screenshot", .str screenshot)]

def browser_recon (target output_dir : String) (dry : Bool)
    (env : Option JVal) : List ExtCall × Option JVal :=
  let url := normalizeUrlS target
  let output_file := pathJoin output_dir "browser_recon.json"
  let screenshot := pathJoin output_dir "screenshot.png"
  if dry then ([], some (browserDryDict url output_file screenshot))
  else ([.http url], env)

/-! ### `ssl_recon.run_ssllabs` (ssl_recon.py 165–211) -/

/-- One remote response in the SSL Labs polling loop: the reported
`status` field is `READY`, `ERROR`, or anything else (still running);
`exc` is a transport failure or malformed response, which raises and is
caught by the adapter's generic handler. -/
inductive SslResp where
  | ready (data : JVal)
  | errorStatus
  | inProgress
  | exc

/-- `time.sleep(30)` between SSL Labs polls (ssl_recon.py line 194). -/
def sslLabsPollIntervalSeconds : Nat := 30

/-- The `while data['status'] != 'READY' and data['status'] != 'ERROR'`
loop of `run_ssllabs` (ssl_recon.py 192–200), with `remote i` the
response to the `i`-th request.  The outer `Option` is fuel-exhaustion:
`none` means the loop is still polling after `fuel` responses — the
source contains no budget or timeout check, so no iteration count is
ever enough for a remote that stays non-terminal. -/
def ssllabsLoop : Nat → (Nat → SslResp) → Nat → Option (Option JVal)
  | 0, _, _ => none
  | fuel + 1, remote, i =>
      match remote i with
      | .ready d => some (some d)
      | .errorStatus => some none
      | .exc => some none
      | .inProgress => ssllabsLoop fuel remote (i + 1)

def ssllabsApiUrl (domain : String) : String :=
  "https://api.ssllabs.com/api/v3/analyze?host=" ++ domain ++ "&startNew=on&all=done"

def run_ssllabs (fuel : Nat) (target output_dir : String) (dry : Bool)
    (remote : Nat → SslResp) : Option (List ExtCall × Option JVal) :=
  let domain := extractDomainS target
  let output_file := pathJoin output_dir "ssllabs.json"
  if dry then some ([], some (.obj
    [("dry_run", .bool true), ("target", .str domain),
     ("api", .str "SSL Labs"), ("output_file", .str output_file)]))
  else
    match ssllabsLoop fuel remote 0 with
    | none => none
    | some r => some ([.http (ssllabsApiUrl domain)], r)

/-! ### `security_headers.run_securityheaders` (security_headers.py 12–70) -/

/-- The response to the single `requests.get` call: status code,
headers and body length (`none` = the request raised). -/
structure HeadersResp where
  statusCode : Int
  headers : List (String × String)
  textLen : Nat

def headerGet (hs : List (String × String)) (k : String) : String :=
  (((hs.find? (fun p => p.1 = k)).map Prod.snd)).getD "Not Set"

def securityHeaderNames : List String :=
  ["Strict-Transport-Security", "Content-Security-Policy", "X-Frame-Options",
   "X-Content-Type-Options", "Referrer-Policy", "Permissions-Policy",
   "X-XSS-Protection"]

def securityheadersApiUrl (url : String) : String :=
  "https://securityheaders.com/?q=" ++ url ++ "&followRedirects=on&hide=on&json=on"

def run_securityheaders (target output_dir : String) (dry : Bool)
    (resp : Option HeadersResp) : List ExtCall × Option JVal :=
  let url := normalizeUrlS target
  let output_file := pathJoin output_dir "securityheaders.json"
  let api_url := securityheadersApiUrl url
  if dry then ([], some (.obj
    [("dry_run", .bool true), ("target", .str url),
     ("api", .str "SecurityHeaders.io"), ("output_file", .str output_file)]))
  else
    match resp with
    | none => ([.http api_url], none)
    | some r =>
        ([.http api_url], some (.obj
          [("url", .str url),
           ("status_code", .num r.statusCode),
           ("headers", .obj (r.headers.map (fun p => (p.1, JVal.str p.2)))),
           ("content_length", .num (Int.ofNat r.textLen)),
           ("security_headers", .obj (securityHeaderNames.map
             (fun n => (n, JVal.str (headerGet r.headers n)))))]))

/-! ### `mozilla_observatory.run_mozilla_observatory`
(mozilla_observatory.py 13–80) -/

/-- One remote response in the Observatory polling loop: `state` is
`FINISHED`, `FAILED`, or anything else (still running); `exc` raises
and is caught by the generic handler. -/
inductive ObsResp where
  | finished (scanInfo : JVal)
  | failedState
  | running
  | exc

/-- `time.sleep(10)` between Observatory polls
(mozilla_observatory.py line 58). -/
def observatoryPollIntervalSeconds : Nat := 10

/-- The `while True` status-check loop of `run_mozilla_observatory`
(mozilla_observatory.py 47–58): it exits only on a `FINISHED` or
`FAILED` state (or an exception); there is no budget or timeout check,
so the outer `Option` is `none` — still polling — after any amount of
fuel when the remote stays non-terminal. -/
def obsLoop : Nat → (Nat → ObsResp) → Nat → Option (Option JVal)
  | 0, _, _ => none
  | fuel + 1, remote, i =>
      match remote i with
      | .finished d => some (some d)
      | .failedState => some none
      | .exc => some none
      | .running => obsLoop fuel remote (i + 1)

structure ObsEnv where
  /-- `'error' in data` for the submission response. -/
  submitError : Bool
  poll : Nat → ObsResp
  /-- The `getScanResults` payload fetched after `FINISHED`. -/
  testResults : JVal

def run_mozilla_observatory (fuel : Nat) (target output_dir : String)
    (dry : Bool) (env : ObsEnv) : Option (List ExtCall × Option JVal) :=
  let domain := extractDomainS target
  let output_file := pathJoin output_dir "mozilla_observatory.json"
  let api_url := "https://http-observatory.security.mozilla.org/api/v1/analyze?host="
      ++ domain ++ "&rescan=on"
  if dry then some ([], some (.obj
    [("dry_run", .bool true), ("target", .str domain),
     ("api", .str "Mozilla Observatory"), ("output_file", .str output_file)]))
  else if env.submitError then some ([.http api_url], none)
  else
    match obsLoop fuel env.poll 0 with
    | none => none
    | some none => some ([.http api_url], none)
    | some (some scanInfo) => some ([.http api_url], some (.obj
        [("scan_info", scanInfo), ("test_results", env.testResults)]))

/-! ### `nikto_scanner` (src/modules/vuln_scan/nikto_scanner.py) -/

def highKeywords : List String :=
  ["remote code execution", "rce", "sql injection", "command injection",
   "arbitrary code", "xss", "cross site scripting", "csrf",
   "directory traversal", "path traversal", "buffer overflow",
   "privilege escalation", "authentication bypass"]

def mediumKeywords : List String :=
  ["information disclosure", "information leakage", "default password",
   "default credential", "misconfiguration", "sensitive data",
   "weak password", "insecure configuration", "outdated", "deprecated"]

def lowKeywords : List String :=
  ["version disclosure", "server type", "banner", "header", "cookie",
   "missing header", "clickjacking", "cacheable", "autocomplete"]

/-- `str.lower()` restricted to ASCII. -/
def lowerCh (c : Char) : Char :=
  if 'A' ≤ c && c ≤ 'Z' then Char.ofNat (c.toNat + 32) else c

def toLowerAscii (s : List Char) : List Char := s.map lowerCh

/-- `estimate_severity` (nikto_scanner.py 249–299) on the vulnerability's
`message` value: keyword containment after lowercasing, checked
high → medium → low, defaulting to `info`. -/
def estimate_severity (message : List Char) : String :=
  let m := toLowerAscii message
  if highKeywords.any (fun k => hasSub k.data m) then "high"
  else if mediumKeywords.any (fun k => hasSub k.data m) then "medium"
  else if lowKeywords.any (fun k => hasSub k.data m) then "low"
  else "info"

/-- The severity counters of the summary's `vulnerabilities` dict. -/
structure SevCounts where
  high : Nat
  medium : Nat
  low : Nat
  info : Nat
  deriving Repr, DecidableEq

def SevCounts.bump (c : SevCounts) (sev : String) : SevCounts :=
  if sev = "high" then { c with high := c.high + 1 }
  else if sev = "medium" then { c with medium := c.medium + 1 }
  else if sev = "low" then { c with low := c.low + 1 }
  else { c with info := c.info + 1 }

def SevCounts.total (c : SevCounts) : Nat := c.high + c.medium + c.low + c.info

def SevCounts.toJ (c : SevCounts) : JVal :=
  .obj [("high", .num c.high), ("medium", .num c.medium),
        ("low", .num c.low), ("info", .num c.info)]

/-- `vuln.get("message", "").lower()`: needs the element to be a dict
and its `message` value, when present, to be a string; anything else
raises (`AttributeError`), modelled as `none`. -/
def vulnMessage : JVal → Option String
  | .obj kvs =>
      match JVal.lookup "message" (.obj kvs) with
      | none => some ""
      | some (.str s) => some s
      | some _ => none
  | _ => none

def jGetD (v : JVal) (k : String) (d : JVal) : JVal := (v.lookup k).getD d

/-- One finding entry (nikto_scanner.py 222–231). -/
def mkFinding (v : JVal) (sev : String) : JVal :=
  .obj [("id", jGetD v "id" (.str "unknown")),
        ("severity", .str sev),
        ("method", jGetD v "method" (.str "")),
        ("url", jGetD v "url" (.str "")),
        ("message", jGetD v "message" (.str "")),
        ("osvdb", jGetD v "osvdb" (.str ""))]

/-- The `for vuln in nikto_data["vulnerabilities"]` loop
(nikto_scanner.py 214–231): counters bumped and findings appended in
order; `none` when an element raises. -/
def processVulns : List JVal → Option (SevCounts × List JVal)
  | [] => some (⟨0, 0, 0, 0⟩, [])
  | v :: rest => do
      let msg ← vulnMessage v
      let sev := estimate_severity msg.data
      let (c, fs) ← processVulns rest
      some (c.bump sev, mkFinding v sev :: fs)

/-- `f"{duration:.1f} seconds"` for a duration modelled in whole
seconds. -/
def fmtDuration (d : Int) : String := toString d ++ ".0 seconds"

/-- The `except` branch of `create_nikto_summary`
(nikto_scanner.py 239–247). -/
def errSummary (target scanType : String) (dur : Int) (ts : String) : JVal :=
  .obj [("error", .str "Failed to create summary"),
        ("target", .str target), ("scan_type", .str scanType),
        ("duration", .str (fmtDuration dur)), ("timestamp", .str ts)]

/-- The summary dict assembled by `create_nikto_summary`
(nikto_scanner.py 191–237): the base keys in literal order, the
conditional `host_details`/`statistics` inserts, then the final
`total_findings` insert. -/
def niktoSummaryFinish (data : JVal) (target scanType : String) (dur : Int)
    (ts : String) (c : SevCounts) (fs : List JVal) : JVal :=
  let base := [("target", JVal.str target), ("scan_type", JVal.str scanType),
               ("duration", JVal.str (fmtDuration dur)),
               ("timestamp", JVal.str ts),
               ("vulnerabilities", c.toJ), ("findings", JVal.arr fs)]
  let base := match data.lookup "details" with
    | some dv =>
        let base := match dv.lookup "host" with
          | some h => insertKey base "host_details" h
          | none => base
        (match dv.lookup "stats" with
         | some st => insertKey base "statistics" st
         | none => base)
    | none => base
  JVal.obj (insertKey base "total_findings" (.num c.total))

/-- `create_nikto_summary` (nikto_scanner.py 176–247).  A scalar
`nikto_data` makes `"details" in nikto_data` raise; a non-list
`vulnerabilities` value, a non-dict element, or a non-string `message`
raises inside the loop; each lands in the `except` branch. -/
def create_nikto_summary (data : JVal) (target scanType : String)
    (dur : Int) (ts : String) : JVal :=
  match data with
  | .num _ => errSummary target scanType dur ts
  | .bool _ => errSummary target scanType dur ts
  | .null => errSummary target scanType dur ts
  | _ =>
      match data.lookup "vulnerabilities" with
      | none => niktoSummaryFinish data target scanType dur ts ⟨0, 0, 0, 0⟩ []
      | some (.arr vs) =>
          (match processVulns vs with
           | some (c, fs) => niktoSummaryFinish data target scanType dur ts c fs
           | none => errSummary target scanType dur ts)
      | some _ => errSummary target scanType dur ts

structure NiktoEnv where
  /-- `datetime.now().strftime(...)` used in the output file names. -/
  timestamp : String
  proc : ProcOutcome
  /-- Content of the JSON output file after the run; `none` = missing
  or empty. -/
  jsonFile : Option String
  /-- `time.time() - start_time`, modelled in whole seconds. -/
  durationSecs : Int
  /-- `datetime.now()` formatted inside `create_nikto_summary`. -/
  summaryTimestamp : String

def niktoCommand (target jsonOutput scanType : String)
    (customOptions : Option (List String)) : List String :=
  ["nikto", "-h", target, "-o", jsonOutput, "-Format", "json"] ++
  (if scanType = "quick" then ["-Tuning", "23bc", "-maxtime", "600"]
   else if scanType = "thorough" then ["-Tuning", "x", "-maxtime", "3600"]
   else match customOptions with
     | some opts => if scanType = "custom" then opts else ["-maxtime", "1800"]
     | none => ["-maxtime", "1800"])

/-- The success return of `run_nikto` (nikto_scanner.py 119–126 and
150–157). -/
def niktoSuccess (data summary : JVal) (jsonOutput summaryOutput scanType : String)
    (dur : Int) : JVal :=
  .obj [("raw_results", data), ("summary", summary),
        ("output_file", .str jsonOutput), ("summary_file", .str summaryOutput),
        ("scan_type", .str scanType), ("duration", .num dur)]

/-- The fall-through failure return of `run_nikto`
(nikto_scanner.py 162–167). -/
def niktoFailure (code : Nat) (txtOutput scanType : String) (dur : Int) : JVal :=
  .obj [("error", .str ("Nikto scan failed or produced invalid output (exit code: "
          ++ toString code ++ ")")),
        ("debug_file", .str txtOutput), ("scan_type", .str scanType),
        ("duration", .num dur)]

/-- `run_nikto` (nikto_scanner.py 15–174): `check=False`; on any exit
code the declared JSON file is loaded robustly, with the captured
stdout as fallback when the file is missing or empty; only when neither
yields truthy data is the failure dict returned. -/
def run_nikto (target output_dir scanType : String)
    (customOptions : Option (List String)) (dry : Bool) (env : NiktoEnv) :
    List ExtCall × JVal :=
  let target := normalizeUrlS target
  let json_output := pathJoin output_dir
    ("nikto_" ++ scanType ++ "_" ++ env.timestamp ++ ".json")
  let txt_output := pathJoin output_dir
    ("nikto_" ++ scanType ++ "_" ++ env.timestamp ++ ".txt")
  let summary_output := pathJoin output_dir
    ("nikto_summary_" ++ scanType ++ "_" ++ env.timestamp ++ ".json")
  let command := niktoCommand target json_output scanType customOptions
  if dry then
    ([], .obj [("dry_run", .bool true), ("command", .str (joinCmd command)),
               ("output_file", .str json_output), ("scan_type", .str scanType)])
  else
    match env.proc with
    | .toolMissing =>
        ([.proc command], .obj [("error", .str excMsgFileNotFound),
                                ("scan_type", .str scanType)])
    | .exit code stdout _ =>
        let dur := env.durationSecs
        let fromData := fun (data : JVal) =>
          if data.truthy then
            some (niktoSuccess data
              (create_nikto_summary data target scanType dur env.summaryTimestamp)
              json_output summary_output scanType dur)
          else none
        let result :=
          match env.jsonFile with
          | some content =>
              (match robust_json_parse content with
               | some data => fromData data
               | none => none)
          | none =>
              (match robust_json_parse (String.mk stdout) with
               | some data => fromData data
               | none => none)
        ([.proc command],
         match result with
         | some r => r
         | none => niktoFailure code txt_output scanType dur)

/-! ## The scan coordinator (`coordinator.run_recon`, coordinator.py
29–108) -/

/-- The external world as seen by one coordinator run: one outcome per
probe adapter. -/
structure ReconEnv where
  whatweb : WhatwebEnv
  theharvester : HarvOutcome
  dnsenum : ProcOutcome
  sslscan : SslscanEnv
  wafw00f : WafEnv
  browser : Option JVal
  ssllabs : Nat → SslResp
  secheaders : Option HeadersResp

/-- `run_recon`: the five subprocess probes always run, in source
order; the browser probe runs only when `use_browser` holds **and** the
target starts with `http://`/`https://`; SSL Labs and SecurityHeaders
run only when `use_online_services` holds (the Mozilla Observatory call
is commented out in the source).  There is no `try` around any adapter
call, so an exception escaping an adapter propagates (`Except.error`),
and a probe skipped by a toggle gets **no** entry in `results`.  The
outer `Option` is `none` when the SSL Labs polling loop is still
running after `fuel` responses. -/
def run_recon (fuel : Nat) (target output_dir : String)
    (use_browser use_online_services dry_run : Bool) (env : ReconEnv) :
    Option (Except PyExc (List (String × Option JVal) × String)) :=
  let recon_dir := pathJoin output_dir "recon"
  let ww := (run_whatweb target recon_dir dry_run env.whatweb).2
  match (run_theharvester target recon_dir dry_run env.theharvester).2 with
  | .error e => some (.error e)
  | .ok th =>
      let dns := (run_dnsenum target recon_dir dry_run env.dnsenum).2
      let ssl := (run_sslscan target recon_dir dry_run env.sslscan).2
      let waf := (run_wafw00f target recon_dir dry_run env.wafw00f).2
      let base := [("whatweb", ww), ("theharvester", th),
                   ("dnsenum", some dns), ("sslscan", some ssl),
                   ("wafw00f", waf)]
      let base :=
        if use_browser && startsWithHttp target.data then
          base ++ [("browser", (browser_recon target recon_dir dry_run env.browser).2)]
        else base
      if use_online_services then
        match run_ssllabs fuel target recon_dir dry_run env.ssllabs with
        | none => none
        | some sl =>
            let sh := (run_securityheaders target recon_dir dry_run env.secheaders).2
            some (.ok (base ++ [("ssllabs", sl.2), ("securityheaders", sh)],
                       recon_dir))
      else some (.ok (base, recon_dir))

/-- The probe names recorded by a successful `run_recon`, as a function
of the toggles and the target. -/
def reconKeys (use_browser use_online_services : Bool) (target : String) :
    List String :=
  ["whatweb", "theharvester", "dnsenum", "sslscan", "wafw00f"] ++
  (if use_browser && startsWithHttp target.data then ["browser"] else []) ++
  (if use_online_services then ["ssllabs", "securityheaders"] else [])

/-! ## The entry point (`main.py`) -/

inductive Mode where
  | recon | vuln | full
  deriving Repr, DecidableEq

structure MainArgs where
  target : String
  mode : Mode
  output : Option String
  quiet : Bool
  noBrowser : Bool
  noOnline : Bool
  dryRun : Bool
  noBanner : Bool

/-- Modelled from the spec:
`src.modules.vuln_scan.vulnerability_scanner.run_scan` is imported by
`main.py` but its module is not in the source tree.  Per spec §7 every
probe failure in the scanning phases is recovered at the adapter level
and surfaced only inside the returned results — never raised — so the
phase is modelled as returning an environment-supplied results mapping
together with its output subdirectory. -/
structure VulnEnv where
  results : List (String × Option JVal)

def vulnerability_scanner_run_scan (_target output_dir : String)
    (_use_browser _dry_run : Bool) (env : VulnEnv) :
    List (String × Option JVal) × String :=
  (env.results, pathJoin output_dir "vuln")

structure MainEnv where
  /-- `datetime.now().strftime("%Y%m%d_%H%M%S")`. -/
  timestamp : String
  /-- `os.access(default_dir, os.W_OK)`. -/
  defaultWritable : Bool
  /-- `os.makedirs(output_dir)` raises `PermissionError`. -/
  mkdirPermError : Bool
  /-- The disclaimer prompt is answered `y`. -/
  userConfirms : Bool
  reconFuel : Nat
  recon : ReconEnv
  vuln : VulnEnv

/-- `args.target.replace('://', '_').replace('/', '_')`. -/
def sanitizeTarget (t : String) : String :=
  String.mk (pyReplace (pyReplace t.data "://".data ['_']) ['/'] ['_'])

/-- Output-directory selection with permission fallbacks
(main.py 69–93); the script and home directories are modelled by the
stable roots `results` and `~/.kast/results`. -/
def chooseOutputDir (args : MainArgs) (env : MainEnv) : String :=
  let base := match args.output with
    | some o => o
    | none =>
        if env.defaultWritable then
          pathJoin "results" (sanitizeTarget args.target ++ "-" ++ env.timestamp)
        else
          pathJoin "~/.kast/results" (sanitizeTarget args.target ++ "-" ++ env.timestamp)
  if env.mkdirPermError then
    "/tmp/kast-" ++ sanitizeTarget args.target ++ "-" ++ env.timestamp
  else base

/-- Observable outcome of one `main()` run.  `dirsCreated` lists the
output directories created before the outcome (report generation is the
excluded reporting collaborator and is not modelled).  `crashed` is an
exception escaping a phase, caught by the `__main__` wrapper which
exits with status 1; `stillPolling` means a polling loop was still
running after the model's fuel. -/
inductive MainOutcome where
  | invalidTarget
  | abortedByUser
  | completed (dirsCreated : List String)
      (results : List (String × List (String × Option JVal)))
  | crashed (e : PyExc) (dirsCreated : List String)
  | stillPolling (dirsCreated : List String)

/-- `main` (main.py 27–135): validate the target first (exiting before
any directory or probe), confirm the disclaimer, create the output
directory, then run the phases selected by `mode`. -/
def mainRun (args : MainArgs) (env : MainEnv) : MainOutcome :=
  if !is_valid_target args.target.data then .invalidTarget
  else if !args.quiet && !args.noBanner && !env.userConfirms then .abortedByUser
  else
    let output_dir := chooseOutputDir args env
    let dirs := [output_dir]
    if args.mode = .recon || args.mode = .full then
      match run_recon env.reconFuel args.target output_dir
          (!args.noBrowser) (!args.noOnline) args.dryRun env.recon with
      | none => .stillPolling dirs
      | some (.error e) => .crashed e dirs
      | some (.ok (rres, _)) =>
          if args.mode = .full then
            let vres := (vulnerability_scanner_run_scan args.target output_dir
              (!args.noBrowser) args.dryRun env.vuln).1
            .completed dirs [("recon", rres), ("vuln", vres)]
          else .completed dirs [("recon", rres)]
    else
      let vres := (vulnerability_scanner_run_scan args.target output_dir
        (!args.noBrowser) args.dryRun env.vuln).1
      .completed dirs [("vuln", vres)]

/-! ## Concrete environments used by the closed statements below -/

/-- An environment in which every probe succeeds with minimal data. -/
def goodReconEnv : ReconEnv where
  whatweb := ⟨.exit 0 [] [], some "1"⟩
  theharvester := .exitZero (some ([], [], []))
  dnsenum := .exit 0 [] []
  sslscan := ⟨.exit 0 [] [], some "1"⟩
  wafw00f := ⟨.exit 0 [] [], some "1"⟩
  browser := some .null
  ssllabs := fun _ => .ready .null
  secheaders := none

/-- `goodReconEnv` with the `theHarvester` binary missing. -/
def harvMissingEnv : ReconEnv :=
  { goodReconEnv with theharvester := .toolMissing }

/-- A whatweb run that exits non-zero after writing a valid JSON
output file. -/
def wwEnvBad : WhatwebEnv := ⟨.exit 1 [] [], some "\x7b\"ok\": 1\x7d"⟩

def niktoEnv0 : NiktoEnv :=
  { timestamp := "ts", proc := .exit 0 [] [], jsonFile := none,
    durationSecs := 7, summaryTimestamp := "ts2" }

def mainArgs0 : MainArgs :=
  { target := "example.com", mode := .recon, output := some "/o",
    quiet := true, noBrowser := false, noOnline := false,
    dryRun := false, noBanner := true }

def mainEnv0 : MainEnv :=
  { timestamp := "t", defaultWritable := true, mkdirPermError := false,
    userConfirms := true, reconFuel := 3, recon := goodReconEnv,
    vuln := ⟨[]⟩ }

def mainEnvHarvMissing : MainEnv := { mainEnv0 with recon := harvMissingEnv }

/-- The results mapping produced by `run_recon` on `goodReconEnv` with
both toggles on. -/
def rGood : List (String × Option JVal) :=
  [("whatweb", some (.num 1)),
   ("theharvester", some (.obj [("emails", .arr []), ("hosts", .arr []),
                                ("vhosts", .arr [])])),
   ("dnsenum", some (.obj [("nameservers", .arr []), ("mx_records", .arr []),
                           ("subdomains", .arr []), ("hosts", .arr []),
                           ("raw_output", .str ""), ("error", .null)])),
   ("sslscan", some (.num 1)),
   ("wafw00f", some (.num 1)),
   ("browser", some .null),
   ("ssllabs", some .null),
   ("securityheaders", none)]

/-- The results mapping produced by `run_recon` on `goodReconEnv` with
both toggles off. -/
def rNoToggles : List (String × Option JVal) := rGood.take 5

/-! ## Sanity checks (evaluated by `rfl`) -/

example : extractProtocols "TLSv1.0   disabled\nTLSv1.2   enabled\n".data
    = [("TLSv1.0", .bool false), ("TLSv1.2", .bool true)] := rfl
example : extractNameservers "host\nNS: ns1.example.com\n".data
    = [.str "ns1.example.com"] := rfl
example : extractHosts "www.example.com 300 IN A 10.0.0.7\n".data
    = [("www.example.com".data, "10.0.0.7".data)] := rfl

/-! ## Helper lemmas -/

/-- C8: for every raw input string that is valid JSON, the normalizer
succeeds on the direct parse and returns the value `json.loads` yields,
with status Success. -/
theorem c8_valid_json_direct_parse (s : String) (v : JVal)
    (h : jsonLoads s = some v) :
    robust_json_parse s = some v ∧ robustStatus s = .success := by
  have h0 : jsonLoads0 s.data = some v := h
  constructor
  · unfold robust_json_parse
    rw [h0]
  · unfold robustStatus
    rw [h0]
    rfl

theorem c8_valid_json_direct_parse_witness :
    jsonLoads "\x7b\"a\": 1\x7d" = some (.obj [("a", .num 1)]) ∧
    robust_json_parse "\x7b\"a\": 1\x7d" = some (.obj [("a", .num 1)]) ∧
    robustStatus "\x7b\"a\": 1\x7d" = .success :=
  ⟨rfl, (c8_valid_json_direct_parse "\x7b\"a\": 1\x7d" (.obj [("a", .num 1)]) rfl).1,
        (c8_valid_json_direct_parse "\x7b\"a\": 1\x7d" (.obj [("a", .num 1)]) rfl).2⟩

/-! ## C3 — recovery of malformed JSON -/

/-- C3 (amended): when the direct parse fails but the recovery
content — strip, keep a complete-looking array/object, otherwise the
greedy embedded `{...}`/`[...]` span, then unescaping — parses, the
normalizer returns that value with status PartialSuccess.  An embedded
valid object does **not** guarantee recovery (see the
counterexample). -/
theorem c3_recovered_content_parses (s : String) (v : JVal)
    (h0 : jsonLoads0 s.data = none)
    (h1 : jsonLoads0 (recoverContent s.data) = some v) :
    robust_json_parse s = some v ∧ robustStatus s = .recovered := by
  have hr : robust_json_parse s = some v := by
    simp only [robust_json_parse, h0, h1]
  refine ⟨hr, ?_⟩
  unfold robustStatus
  rw [h0, hr]
  rfl

theorem c3_recovered_content_parses_witness :
    jsonLoads0 "xx\x7b\"a\": 1\x7d".data = none ∧
    robust_json_parse "xx\x7b\"a\": 1\x7d" = some (.obj [("a", .num 1)]) ∧
    robustStatus "xx\x7b\"a\": 1\x7d" = .recovered :=
  ⟨rfl, (c3_recovered_content_parses "xx\x7b\"a\": 1\x7d" (.obj [("a", .num 1)]) rfl rfl).1,
        (c3_recovered_content_parses "xx\x7b\"a\": 1\x7d" (.obj [("a", .num 1)]) rfl rfl).2⟩

def c3Bad : String := "aa\x7b\"a\": 1\x7dbb\x7bbad\x7d"

/-- C3 counterexample: `c3Bad` is malformed JSON that contains the
embedded valid JSON object `{"a": 1}`, yet every stage of
`robust_json_parse` fails on it (the greedy span runs to the *last*
closing brace, swallowing the junk), so the result is `None`/Failed,
not PartialSuccess containing the object. -/
theorem c3_embedded_object_not_recovered :
    c3Bad.data = "aa".data ++ "\x7b\"a\": 1\x7d".data ++ "bb\x7bbad\x7d".data ∧
    jsonLoads "\x7b\"a\": 1\x7d" = some (.obj [("a", .num 1)]) ∧
    jsonLoads c3Bad = none ∧
    robust_json_parse c3Bad = none ∧
    robustStatus c3Bad = .failed :=
  ⟨rfl, rfl, rfl, rfl, rfl⟩

/-! ## C4 — total parse failure yields `None`, not an empty mapping -/

/-- C4 (amended): when every stage fails the normalizer returns `None`
(`structured` is *absent*, not an empty mapping) with status Failed,
and `load_json_file` propagates the `None`. -/
theorem c4_total_failure_yields_none (s : String)
    (h : robust_json_parse s = none) :
    robustStatus s = .failed ∧ load_json_file (some s) = none := by
  have h0 : jsonLoads0 s.data = none := by
    cases hj : jsonLoads0 s.data with
    | none => rfl
    | some v =>
        have hv : robust_json_parse s = some v := by
          unfold robust_json_parse
          rw [hj]
        rw [h] at hv
        exact Option.noConfusion hv
  constructor
  · unfold robustStatus
    rw [h0, h]
    rfl
  · exact h

theorem c4_total_failure_yields_none_witness :
    robust_json_parse "hello" = none ∧
    robustStatus "hello" = .failed ∧
    load_json_file (some "hello") = none :=
  ⟨rfl, (c4_total_failure_yields_none "hello" rfl).1,
        (c4_total_failure_yields_none "hello" rfl).2⟩

/-- C4 counterexample: on an unparsable input `robust_json_parse`
returns `None` — not an empty mapping — so the claimed
"present as an empty mapping rather than absent, never null" fails on
the code. -/
theorem c4_failure_is_absent_not_empty :
    robust_json_parse "hello" = none ∧
    load_json_file (some "hello") = none ∧
    ¬ robust_json_parse "hello" = some (.obj []) := by
  refine ⟨rfl, rfl, ?_⟩
  intro h
  have h' : (none : Option JVal) = some (.obj []) :=
    (show robust_json_parse "hello" = none from rfl) ▸ h
  exact Option.noConfusion h'

/-! ## C10 — Nikto summary invariants -/

/-- C5 (amended): with `dry_run` true no adapter — the six subprocess
adapters, the browser adapter, and the three API adapters — performs an
external invocation, and each returns a dict whose `command` (or API /
tool description) and `output_file` describe what would run; the dict
carries **no** duration field — the claimed `duration_seconds == 0` has
no counterpart in the returned value (see the counterexample). -/
theorem c5_dry_run_no_invocation (target output_dir scanType : String)
    (copts : Option (List String)) (envW : WhatwebEnv) (envH : HarvOutcome)
    (envD : ProcOutcome) (envS : SslscanEnv) (envF : WafEnv) (envN : NiktoEnv)
    (remote : Nat → SslResp) (envSH : Option HeadersResp) (envB : Option JVal)
    (envO : ObsEnv) :
    (run_whatweb target output_dir true envW).1 = [] ∧
    ((run_whatweb target output_dir true envW).2.bind (JVal.lookup "command"))
      = some (.str (joinCmd (whatwebCommand target (pathJoin output_dir "whatweb.json")))) ∧
    ((run_whatweb target output_dir true envW).2.bind (JVal.lookup "output_file"))
      = some (.str (pathJoin output_dir "whatweb.json")) ∧
    (run_theharvester target output_dir true envH).1 = [] ∧
    (run_theharvester target output_dir true envH).2
      = .ok (some (dryRunDict
          (theharvesterCommand (extractDomainS target) (pathJoin output_dir "theharvester.xml"))
          (pathJoin output_dir "theharvester.xml"))) ∧
    (run_dnsenum target output_dir true envD).1 = [] ∧
    ((run_dnsenum target output_dir true envD).2.lookup "command")
      = some (.str (joinCmd (dnsenumCommand (extractDomainS target)))) ∧
    (run_sslscan target output_dir true envS).1 = [] ∧
    ((run_sslscan target output_dir true envS).2.lookup "command")
      = some (.str (joinCmd (sslscanCommand (extractDomainS target)
          (pathJoin output_dir "sslscan.json")))) ∧
    ((run_sslscan target output_dir true envS).2.lookup "output_file")
      = some (.str (pathJoin output_dir "sslscan.json")) ∧
    (run_wafw00f target output_dir true envF).1 = [] ∧
    ((run_wafw00f target output_dir true envF).2.bind (JVal.lookup "command"))
      = some (.str (joinCmd (wafw00fCommand (normalizeUrlS target)
          (pathJoin output_dir "wafw00f.json")))) ∧
    (run_nikto target output_dir scanType copts true envN).1 = [] ∧
    ((run_nikto target output_dir scanType copts true envN).2.lookup "command")
      = some (.str (joinCmd (niktoCommand (normalizeUrlS target)
          (pathJoin output_dir ("nikto_" ++ scanType ++ "_" ++ envN.timestamp ++ ".json"))
          scanType copts))) ∧
    ((run_nikto target output_dir scanType copts true envN).2.lookup "output_file")
      = some (.str (pathJoin output_dir
          ("nikto_" ++ scanType ++ "_" ++ envN.timestamp ++ ".json"))) ∧
    ((run_nikto target output_dir scanType copts true envN).2.lookup "duration") = none ∧
    run_ssllabs 0 target output_dir true remote
      = some ([], some (.obj
          [("dry_run", .bool true), ("target", .str (extractDomainS target)),
           ("api", .str "SSL Labs"),
           ("output_file", .str (pathJoin output_dir "ssllabs.json"))])) ∧
    run_securityheaders target output_dir true envSH
      = ([], some (.obj
          [("dry_run", .bool true), ("target", .str (normalizeUrlS target)),
           ("api", .str "SecurityHeaders.io"),
           ("output_file", .str (pathJoin output_dir "securityheaders.json"))])) ∧
    (browser_recon target output_dir true envB).1 = [] ∧
    ((browser_recon target output_dir true envB).2.bind (JVal.lookup "tool"))
      = some (.str "Browser Reconnaissance") ∧
    ((browser_recon target output_dir true envB).2.bind (JVal.lookup "output_file"))
      = some (.str (pathJoin output_dir "browser_recon.json")) ∧
    ((browser_recon target output_dir true envB).2.bind (JVal.lookup "screenshot"))
      = some (.str (pathJoin output_dir "screenshot.png")) ∧
    run_mozilla_observatory 0 target output_dir true envO
      = some ([], some (.obj
          [("dry_run", .bool true), ("target", .str (extractDomainS target)),
           ("api", .str "Mozilla Observatory"),
           ("output_file", .str (pathJoin output_dir "mozilla_observatory.json"))])) :=
  ⟨rfl, rfl, rfl, rfl, rfl, rfl, rfl, rfl, rfl, rfl, rfl, rfl, rfl, rfl, rfl,
   rfl, rfl, rfl, rfl, rfl, rfl, rfl, rfl⟩

/-- C5 counterexample: the dry-run result of `run_nikto` carries no
`duration` key at all (so it cannot equal 0), while the non-dry-run
result does carry one; the command and output path are present as
claimed. -/
theorem c5_dry_result_has_no_duration :
    ((run_nikto "example.com" "/out" "basic" none true niktoEnv0).2.lookup "duration")
      = none ∧
    ((run_nikto "example.com" "/out" "basic" none true niktoEnv0).2.lookup "command")
      = some (.str "nikto -h http://example.com -o /out/nikto_basic_ts.json -Format json -maxtime 1800") ∧
    ((run_nikto "example.com" "/out" "basic" none false niktoEnv0).2.lookup "duration")
      = some (.num 7) :=
  ⟨rfl, rfl, rfl⟩

/-! ## C6 — polling never times out -/

/-- C6 (amended): the SSL Labs and Observatory polling loops exit only
when the remote reports a terminal state (or a request raises); they
contain no wall-clock budget, so against a remote that stays
non-terminal they poll forever at their fixed 30- and 10-second intervals —
no amount of fuel makes them return, let alone return a
timeout-Failed. -/
theorem c6_poll_loops_never_time_out :
    (∀ fuel i, ssllabsLoop fuel (fun _ => SslResp.inProgress) i = none) ∧
    (∀ fuel i, obsLoop fuel (fun _ => ObsResp.running) i = none) ∧
    sslLabsPollIntervalSeconds = 30 ∧ observatoryPollIntervalSeconds = 10 := by
  refine ⟨?_, ?_, rfl, rfl⟩
  · intro fuel
    induction fuel with
    | zero => intro i; rfl
    | succ n ih => intro i; exact ih (i + 1)
  · intro fuel
    induction fuel with
    | zero => intro i; rfl
    | succ n ih => intro i; exact ih (i + 1)

set_option maxRecDepth 4000 in
/-- C6 counterexample: after 300 polls (150 minutes of SSL Labs
polling at its 30-second interval — far beyond any budget, and far
beyond the spec's 3-second scenario) the client is still polling; it
never stops with a timeout Failure. -/
theorem c6_still_polling_after_300_checks :
    ssllabsLoop 300 (fun _ => SslResp.inProgress) 0 = none ∧
    run_ssllabs 300 "example.com" "/o" false (fun _ => SslResp.inProgress) = none ∧
    obsLoop 300 (fun _ => ObsResp.running) 0 = none :=
  ⟨rfl, rfl, rfl⟩

/-! ## C7 — non-zero exit handling -/

/-- C7 (amended): the `check=False` adapters treat a non-zero exit as
non-fatal — `run_sslscan` and `run_dnsenum` still normalize the
captured stdout (keeping it as `raw_output` with the stderr diagnostic
as `error`) and `run_nikto` still loads the declared output file — but
the `check=True` adapters `run_whatweb`, `run_theharvester` and
`run_wafw00f` return `None` from the `CalledProcessError` handler on
any non-zero exit, without attempting to read whatever output exists
(see the counterexample). -/
theorem c7_nonzero_exit_handling (target output_dir scanType : String)
    (copts : Option (List String)) (ts ts2 : String) (d : Int)
    (code : Nat) (stdout stderr : List Char) (f : Option String)
    (hcode : code ≠ 0) :
    (run_whatweb target output_dir false ⟨.exit code stdout stderr, f⟩).2 = none ∧
    (run_theharvester target output_dir false (.exitNonZero code)).2 = .ok none ∧
    (run_wafw00f target output_dir false ⟨.exit code stdout stderr, f⟩).2 = none ∧
    ((run_sslscan target output_dir false ⟨.exit code stdout stderr, none⟩).2.lookup "raw_output")
      = some (.str (String.mk stdout)) ∧
    ((run_sslscan target output_dir false ⟨.exit code stdout stderr, none⟩).2.lookup "error")
      = some (.str (String.mk stderr)) ∧
    ((run_dnsenum target output_dir false (.exit code stdout stderr)).2.lookup "raw_output")
      = some (.str (String.mk stdout)) ∧
    ((run_dnsenum target output_dir false (.exit code stdout stderr)).2.lookup "error")
      = some (.str (String.mk stderr)) ∧
    (∀ content data, robust_json_parse content = some data → data.truthy = true →
      ((run_nikto target output_dir scanType copts false
          ⟨ts, .exit code stdout stderr, some content, d, ts2⟩).2.lookup "raw_results")
        = some data) := by
  have hb : (code != 0) = true := by simp [hcode]
  refine ⟨?_, rfl, ?_, ?_, ?_, ?_, ?_, ?_⟩
  · simp [run_whatweb, hb]
  · simp [run_wafw00f, hb]
  · simp [run_sslscan, sslscanTextData, hb, JVal.lookup, JVal.lookup.go]
  · simp [run_sslscan, sslscanTextData, hb, JVal.lookup, JVal.lookup.go]
  · simp [run_dnsenum, dnsenumData, hb, JVal.lookup, JVal.lookup.go]
  · simp [run_dnsenum, dnsenumData, hb, JVal.lookup, JVal.lookup.go]
  · intro content data hparse htruthy
    simp [run_nikto, hparse, htruthy, niktoSuccess, JVal.lookup, JVal.lookup.go]

theorem c7_nonzero_exit_handling_witness :
    (run_whatweb "example.com" "/o" false
        ⟨.exit 1 "out".data "boom".data, some "1"⟩).2 = none ∧
    (run_theharvester "example.com" "/o" false (.exitNonZero 1)).2 = .ok none ∧
    ((run_sslscan "example.com" "/o" false
        ⟨.exit 1 "out".data "boom".data, none⟩).2.lookup "raw_output")
      = some (.str "out") ∧
    ((run_dnsenum "example.com" "/o" false
        (.exit 1 "out".data "boom".data)).2.lookup "error")
      = some (.str "boom") ∧
    ((run_nikto "example.com" "/o" "basic" none false
        ⟨"ts", .exit 1 "out".data "boom".data, some "\x7b\"a\": 1\x7d", 7, "t2"⟩).2.lookup
          "raw_results")
      = some (.obj [("a", .num 1)]) :=
  have h := c7_nonzero_exit_handling "example.com" "/o" "basic" none "ts" "t2" 7
    1 "out".data "boom".data (some "1") (by decide)
  ⟨h.1, h.2.1, h.2.2.2.1, h.2.2.2.2.2.2.1,
   h.2.2.2.2.2.2.2 "\x7b\"a\": 1\x7d" (.obj [("a", .num 1)]) rfl rfl⟩

/-- C7 counterexample: whatweb exits 1 after writing a valid, truthy
JSON output file, yet `run_whatweb` returns `None` — no attempt to
locate the produced output, and no process diagnostic in the result. -/
theorem c7_whatweb_discards_output_on_nonzero_exit :
    robust_json_parse "\x7b\"ok\": 1\x7d" = some (.obj [("ok", .num 1)]) ∧
    (JVal.obj [("ok", .num 1)]).truthy = true ∧
    (run_whatweb "example.com" "/o" false wwEnvBad).2 = none :=
  ⟨rfl, rfl, rfl⟩

/-! ## C2 — one results entry per executed probe -/

/-- C2 (amended): a successful `run_recon` records exactly one entry
per probe it actually invokes — the five subprocess probes always, the
browser probe iff `use_browser` holds and the target starts with
`http://`/`https://`, SSL Labs and SecurityHeaders iff
`use_online_services` holds — with no duplicate keys.  A probe skipped
by a toggle gets **no** entry at all (no Skipped status; see the
counterexample). -/
theorem c2_results_keys (fuel : Nat) (target output_dir : String)
    (ub uo dry : Bool) (env : ReconEnv) (r : List (String × Option JVal))
    (rd : String)
    (h : run_recon fuel target output_dir ub uo dry env = some (.ok (r, rd))) :
    r.map Prod.fst = reconKeys ub uo target ∧ (r.map Prod.fst).Nodup := by
  cases hh : (run_theharvester target (pathJoin output_dir "recon") dry
      env.theharvester).2 with
  | error e =>
      simp [run_recon, hh] at h
  | ok th =>
      by_cases hbb : (ub && startsWithHttp target.data) = true
      · cases uo with
        | true =>
            cases hsl : run_ssllabs fuel target (pathJoin output_dir "recon")
                dry env.ssllabs with
            | none => simp [run_recon, hh, hbb, hsl] at h
            | some sl =>
                simp [run_recon, hh, hbb, hsl] at h
                obtain ⟨h1, h2⟩ := h
                subst h1
                constructor
                · simp [reconKeys, hbb]
                · simp
        | false =>
            simp [run_recon, hh, hbb] at h
            obtain ⟨h1, h2⟩ := h
            subst h1
            constructor
            · simp [reconKeys, hbb]
            · simp
      · cases uo with
        | true =>
            cases hsl : run_ssllabs fuel target (pathJoin output_dir "recon")
                dry env.ssllabs with
            | none => simp [run_recon, hh, hbb, hsl] at h
            | some sl =>
                simp [run_recon, hh, hbb, hsl] at h
                obtain ⟨h1, h2⟩ := h
                subst h1
                constructor
                · simp [reconKeys, hbb]
                · simp
        | false =>
            simp [run_recon, hh, hbb] at h
            obtain ⟨h1, h2⟩ := h
            subst h1
            constructor
            · simp [reconKeys, hbb]
            · simp

theorem c2_results_keys_witness :
    run_recon 3 "http://example.com" "/o" true true false goodReconEnv
      = some (.ok (rGood, "/o/recon")) ∧
    rGood.map Prod.fst = reconKeys true true "http://example.com" ∧
    (rGood.map Prod.fst).Nodup :=
  have h : run_recon 3 "http://example.com" "/o" true true false goodReconEnv
      = some (.ok (rGood, "/o/recon")) := rfl
  ⟨h, (c2_results_keys 3 "http://example.com" "/o" true true false goodReconEnv
        rGood "/o/recon" h).1,
      (c2_results_keys 3 "http://example.com" "/o" true true false goodReconEnv
        rGood "/o/recon" h).2⟩

/-- C2 counterexample: with the browser and online-services toggles
off, the probes they disable get **no** `results` entry — there is no
entry with status Skipped, the keys are simply absent. -/
theorem c2_toggled_off_probes_get_no_entry :
    run_recon 3 "http://example.com" "/o" false false false goodReconEnv
      = some (.ok (rNoToggles, "/o/recon")) ∧
    "browser" ∉ rNoToggles.map Prod.fst ∧
    "ssllabs" ∉ rNoToggles.map Prod.fst ∧
    "securityheaders" ∉ rNoToggles.map Prod.fst :=
  ⟨rfl, by decide, by decide, by decide⟩

/-! ## C1 — probe-failure isolation -/

theorem harvester_nondry_ok (target rdir : String) (env : HarvOutcome)
    (h : env ≠ .toolMissing) :
    ∃ th, (run_theharvester target rdir false env).2 = .ok th := by
  cases env with
  | toolMissing => exact absurd rfl h
  | exitNonZero c => exact ⟨_, rfl⟩
  | exitZero p =>
      cases p with
      | none => exact ⟨_, rfl⟩
      | some t =>
          obtain ⟨es, t2⟩ := t
          obtain ⟨hs, vs⟩ := t2
          exact ⟨_, rfl⟩

theorem ssllabs_nondry_some (fuel : Nat) (target rdir : String)
    (remote : Nat → SslResp) (h : (ssllabsLoop fuel remote 0).isSome) :
    ∃ sl, run_ssllabs fuel target rdir false remote = some sl := by
  obtain ⟨res, hres⟩ := Option.isSome_iff_exists.mp h
  refine ⟨([ExtCall.http (ssllabsApiUrl (extractDomainS target))], res), ?_⟩
  simp [run_ssllabs, hres]

/-- C1 (amended): the coordinator run completes with a results record
whenever the `theHarvester` invocation does not raise (every other
adapter catches all of its failures and contributes `None`/an error
dict instead) and the SSL Labs polling — when reached — terminates.  A
missing `theHarvester` binary raises `FileNotFoundError` out of
`run_theharvester`, which the coordinator does not isolate, so that one
failure aborts the whole run (see the counterexample). -/
theorem c1_run_not_aborted (fuel : Nat) (target output_dir : String)
    (ub uo dry : Bool) (env : ReconEnv)
    (hharv : dry = true ∨ env.theharvester ≠ HarvOutcome.toolMissing)
    (hpoll : dry = false → uo = true → (ssllabsLoop fuel env.ssllabs 0).isSome) :
    run_recon fuel target output_dir ub uo dry env ≠ none ∧
    ∀ e, run_recon fuel target output_dir ub uo dry env ≠ some (.error e) := by
  cases dry with
  | true =>
      constructor
      · intro heq
        cases uo <;> by_cases hbb : (ub && startsWithHttp target.data) = true <;>
          simp [run_recon, run_theharvester, run_ssllabs, hbb] at heq
      · intro e heq
        cases uo <;> by_cases hbb : (ub && startsWithHttp target.data) = true <;>
          simp [run_recon, run_theharvester, run_ssllabs, hbb] at heq
  | false =>
      have hh : env.theharvester ≠ HarvOutcome.toolMissing := by
        rcases hharv with h | h
        · exact absurd h (by simp)
        · exact h
      obtain ⟨th, hth⟩ :=
        harvester_nondry_ok target (pathJoin output_dir "recon") env.theharvester hh
      constructor
      · intro heq
        cases uo with
        | true =>
            obtain ⟨sl, hsl⟩ := ssllabs_nondry_some fuel target
              (pathJoin output_dir "recon") env.ssllabs (hpoll rfl rfl)
            by_cases hbb : (ub && startsWithHttp target.data) = true <;>
              simp [run_recon, hth, hsl, hbb] at heq
        | false =>
            by_cases hbb : (ub && startsWithHttp target.data) = true <;>
              simp [run_recon, hth, hbb] at heq
      · intro e heq
        cases uo with
        | true =>
            obtain ⟨sl, hsl⟩ := ssllabs_nondry_some fuel target
              (pathJoin output_dir "recon") env.ssllabs (hpoll rfl rfl)
            by_cases hbb : (ub && startsWithHttp target.data) = true <;>
              simp [run_recon, hth, hsl, hbb] at heq
        | false =>
            by_cases hbb : (ub && startsWithHttp target.data) = true <;>
              simp [run_recon, hth, hbb] at heq

theorem c1_run_not_aborted_witness :
    run_recon 1 "http://example.com" "/o" true true false goodReconEnv ≠ none ∧
    ∀ e, run_recon 1 "http://example.com" "/o" true true false goodReconEnv
      ≠ some (.error e) :=
  c1_run_not_aborted 1 "http://example.com" "/o" true true false goodReconEnv
    (Or.inr (by simp [goodReconEnv]))
    (fun _ _ => rfl)

/-- C1 counterexample: with the `theHarvester` binary missing (and
every other probe healthy) the whole run terminates with the
uncaught `FileNotFoundError` instead of completing with a results
record. -/
theorem c1_missing_tool_aborts_run :
    run_recon 3 "http://example.com" "/o" true true false harvMissingEnv
      = some (.error .fileNotFound) := rfl

/-! ## C9 — invalid target fails fast -/

/-- C9 (amended): a target that fails validation aborts the run before
any output directory is created and before any probe executes.
Validation failure is *not* the only abort, however: an uncaught
adapter exception (e.g. the missing `theHarvester` binary) also
terminates the run, after the output directory exists (see the
counterexample). -/
theorem c9_invalid_target_fails_fast (args : MainArgs) (env : MainEnv)
    (h : is_valid_target args.target.data = false) :
    mainRun args env = .invalidTarget := by
  unfold mainRun
  rw [h]
  rfl

theorem c9_invalid_target_fails_fast_witness :
    is_valid_target "-bad-".data = false ∧
    mainRun { mainArgs0 with target := "-bad-" } mainEnv0 = .invalidTarget :=
  ⟨rfl, c9_invalid_target_fails_fast { mainArgs0 with target := "-bad-" }
          mainEnv0 rfl⟩

/-- C9 counterexample: with a perfectly valid target, the run still
aborts — with the output directory already created — when the
`theHarvester` binary is missing, so target validation is not the only
error that aborts the entire run. -/
theorem c9_valid_target_run_still_aborts :
    is_valid_target "example.com".data = true ∧
    mainRun mainArgs0 mainEnvHarvMissing = .crashed .fileNotFound ["/o"] :=
  ⟨rfl, rfl⟩
